import Mathlib

/-
Verification of the CrossBow security-agent system.

Shallow embedding of `src/Agent.py` (class `SecurityAgentSystem`) and of the
configuration-toggle handlers of `src/crossbow_cli.py` (function `main`).

Modelling conventions:
- Python strings are Lean `String`s; the only string operation the code uses,
  `"frag" in model_id.lower()`, is modelled character-wise with `Char.toLower`
  (ASCII case folding, which covers every identifier the program handles).
- Library objects from the `agno` package (models, tools, `SqliteDb`, `Agent`,
  `Team`) are pure records whose constructors record the arguments the source
  passes to them; they perform no I/O here.
- Python exceptions raised by library constructors (`MultiMCPTools`,
  `MCPTools`, `SecurityAgentSystem` itself when re-created by the CLI) are
  external events; they are modelled by explicit failure oracles
  (`multi_mcp_fails`, `MCPServerSpec.initFails`, `build_fails`), and the
  `try`/`except` structure of the source is reproduced as control flow.
- `uuid.uuid4()` is modelled as drawing from an entropy counter that the
  constructor threads through and increments; distinct draws are distinct.
-/

namespace CrossBow

/-! ## Model resolver (`SecurityAgentSystem._get_model`) -/

/-- Adapters returned by `_get_model`: the three first-class `agno` model
classes plus the generic LiteLLM adapter. Each records the arguments the
source passes (`Claude(id=...)`, `OpenAIChat(id=...)`, `Gemini(id=...)`,
`LiteLLM(id=..., name="LiteLLM")`). -/
inductive ModelAdapter where
  | claude (id : String)
  | openAIChat (id : String)
  | gemini (id : String)
  | liteLLM (id : String) (name : String)
deriving DecidableEq

/-- Python substring test `needle in haystack` on character lists. -/
def containsSub (needle : List Char) : List Char → Bool
  | [] => needle.isEmpty
  | c :: rest => needle.isPrefixOf (c :: rest) || containsSub needle rest

/-- Python `frag in s.lower()`: substring test against the lower-cased id. -/
def containsFrag (frag s : String) : Bool :=
  containsSub frag.toList (s.toList.map Char.toLower)

/-- `SecurityAgentSystem._get_model` (src/Agent.py:104-122).
`litellm_available` models whether `from agno.models.litellm import LiteLLM`
succeeds (its `ImportError` branch falls back to `OpenAIChat`). -/
def _get_model (litellm_available : Bool) (model_id : String) : ModelAdapter :=
  if containsFrag "claude" model_id then
    ModelAdapter.claude model_id
  else if containsFrag "gpt" model_id || containsFrag "o1" model_id ||
      containsFrag "o3" model_id then
    ModelAdapter.openAIChat model_id
  else if containsFrag "gemini" model_id then
    ModelAdapter.gemini model_id
  else if litellm_available then
    ModelAdapter.liteLLM model_id "LiteLLM"
  else
    ModelAdapter.openAIChat model_id

/-- The three first-class providers of the spec (§4.1). -/
inductive Provider where
  | anthropic
  | openai
  | google
deriving DecidableEq

/-- The provider-name fragments the resolver sniffs for, per provider. -/
def providerFragments : Provider → List String
  | Provider.anthropic => ["claude"]
  | Provider.openai => ["gpt", "o1", "o3"]
  | Provider.google => ["gemini"]

/-- A model identifier contains one of the given provider's name fragments
(case-insensitively). -/
def matchesProvider (p : Provider) (s : String) : Bool :=
  (providerFragments p).any fun f => containsFrag f s

/-- The first-class adapter belonging to a provider. -/
def adapterOfProvider (p : Provider) (id : String) : ModelAdapter :=
  match p with
  | Provider.anthropic => ModelAdapter.claude id
  | Provider.openai => ModelAdapter.openAIChat id
  | Provider.google => ModelAdapter.gemini id

/-- Resolver statement written from the spec's words (§4.1): substring match
in priority order over the three first-class providers, then the generic
LiteLLM adapter, then the default `OpenAIChat` fallback. Stated here to be
compared with `_get_model`, which is translated from the source. -/
def resolveModelSpec (litellm_available : Bool) (s : String) : ModelAdapter :=
  if matchesProvider Provider.anthropic s then
    ModelAdapter.claude s
  else if matchesProvider Provider.openai s then
    ModelAdapter.openAIChat s
  else if matchesProvider Provider.google s then
    ModelAdapter.gemini s
  else if litellm_available then
    ModelAdapter.liteLLM s "LiteLLM"
  else
    ModelAdapter.openAIChat s

/-! ## Capability registry (`SecurityAgentSystem._initialize_tools`) -/

/-- A tool (capability) in the shared tool list. Constructors record the
arguments the source passes to the corresponding `agno` tool classes. -/
inductive Tool where
  | security (name : String)
  | duckDuckGo
  | fileTools (base_dir : String) (enable_save_file : Bool) (enable_delete_file : Bool)
  | multiMCP (commands : List String)
  | mcp (url : String) (transport : String)
deriving DecidableEq

/-- Modelled from the spec: `src/tools.py` (imported as
`from src.tools import SECURITY_TOOLS`) is not under `src/`; §4.2 describes it
only as "the full fixed catalogue of domain-specific security capabilities",
a fixed list whose individual entries no claim depends on. -/
def SECURITY_TOOLS : List Tool :=
  [Tool.security "system_commands",
   Tool.security "network_scanning",
   Tool.security "web_browsing",
   Tool.security "file_analysis",
   Tool.security "encoding_utilities",
   Tool.security "http_testing",
   Tool.security "static_analysis",
   Tool.security "vulnerability_scanning",
   Tool.security "binary_analysis"]

/-- `self.base_tools` (src/Agent.py:43-46): DuckDuckGo plus FileTools with
save enabled and delete disabled. -/
def base_tools : List Tool :=
  [Tool.duckDuckGo, Tool.fileTools "." true false]

/-- One entry of the `mcp_servers` list: a Python dict with optional keys
`name`, `command`, `url`, `transport`. `initFails` is the failure oracle for
the `MCPTools(url=..., transport=...)` constructor raising on a URL-based
spec (an external event: unreachable endpoint, etc.). -/
structure MCPServerSpec where
  name : Option String := none
  command : Option String := none
  url : Option String := none
  transport : Option String := none
  initFails : Bool := false
deriving DecidableEq

/-- The partition loop of `_initialize_tools` (src/Agent.py:74-81):
`if 'command' in server: commands.append(...) elif 'url' in server:
url_servers.append(server)`; dicts with neither key are dropped. -/
def partitionServers : List MCPServerSpec → List String × List MCPServerSpec
  | [] => ([], [])
  | s :: rest =>
    match s.command with
    | some c => (c :: (partitionServers rest).1, (partitionServers rest).2)
    | none =>
      match s.url with
      | some _ => ((partitionServers rest).1, s :: (partitionServers rest).2)
      | none => partitionServers rest

/-- Warnings printed by `_initialize_tools`. -/
inductive Warning where
  | mcpServerFailed (name : String)
  | mcpToolsFailed
deriving DecidableEq

/-- The URL-server loop of `_initialize_tools` (src/Agent.py:89-97): each
URL-based spec is attached independently inside its own `try`; a raising
`MCPTools` constructor is caught, a warning naming
`url_server.get('name', 'unknown')` is printed, and the loop continues. -/
def attachUrls : List MCPServerSpec → List Tool × List Warning
  | [] => ([], [])
  | s :: rest =>
    if s.initFails then
      ((attachUrls rest).1,
       Warning.mcpServerFailed (s.name.getD "unknown") :: (attachUrls rest).2)
    else
      (Tool.mcp (s.url.getD "") (s.transport.getD "streamable-http") ::
         (attachUrls rest).1,
       (attachUrls rest).2)

/-- `SecurityAgentSystem._initialize_tools` (src/Agent.py:66-102), returning
the tool list together with the warnings printed. `multi_mcp_fails` is the
failure oracle for the `MultiMCPTools(commands)` constructor; that call is
the only statement in the outer `try` block that can raise (the partition
loop and the appends cannot, and URL failures are caught by the inner
`try`), so a bridge failure jumps straight to the outer `except`, skipping
the URL loop and returning the tools gathered so far. -/
def _initialize_tools (use_mcp : Bool) (mcp_servers : List MCPServerSpec)
    (multi_mcp_fails : List String → Bool) : List Tool × List Warning :=
  let tools := SECURITY_TOOLS ++ base_tools
  if use_mcp && !mcp_servers.isEmpty then
    let commands := (partitionServers mcp_servers).1
    let url_servers := (partitionServers mcp_servers).2
    if !commands.isEmpty then
      if multi_mcp_fails commands then
        (tools, [Warning.mcpToolsFailed])
      else
        (tools ++ [Tool.multiMCP commands] ++ (attachUrls url_servers).1,
         (attachUrls url_servers).2)
    else
      (tools ++ (attachUrls url_servers).1, (attachUrls url_servers).2)
  else
    (tools, [])

/-! ## Persistence stores and role prompts -/

/-- An `agno` `SqliteDb(db_file=...)` handle: records its file path. -/
structure SqliteDb where
  db_file : String
deriving DecidableEq

/-- `CROSSBOW_DIR = Path.home() / ".crossbow"` (src/Agent.py:22). -/
def CROSSBOW_DIR : String := "~/.crossbow"

/-- Operational-state store path (src/Agent.py:54). -/
def storage_path : String := CROSSBOW_DIR ++ "/agent_storage.db"

/-- Conversational-memory store path (src/Agent.py:60). -/
def memory_path : String := CROSSBOW_DIR ++ "/crossbow_agents.db"

/-- Modelled from the spec: `src/prompts.py` (imported as
`from src.prompts import *`) is not under `src/`; per §1 the prompt texts are
"free-text prompt content for each specialist role", opaque to the core, so
each prompt constant is an opaque distinct string. -/
def ANDROID_SAST_AGENT_PROMPT : String := "ANDROID_SAST_AGENT_PROMPT"

/-- Modelled from the spec: opaque role prompt, see `ANDROID_SAST_AGENT_PROMPT`. -/
def BLUETEAM_AGENT_PROMPT : String := "BLUETEAM_AGENT_PROMPT"

/-- Modelled from the spec: opaque role prompt, see `ANDROID_SAST_AGENT_PROMPT`. -/
def BUG_BOUNTY_AGENT_PROMPT : String := "BUG_BOUNTY_AGENT_PROMPT"

/-- Modelled from the spec: opaque role prompt, see `ANDROID_SAST_AGENT_PROMPT`. -/
def CODE_AGENT : String := "CODE_AGENT"

/-- Modelled from the spec: opaque role prompt, see `ANDROID_SAST_AGENT_PROMPT`. -/
def DFIR_AGENT_PROMPT : String := "DFIR_AGENT_PROMPT"

/-- Modelled from the spec: opaque role prompt, see `ANDROID_SAST_AGENT_PROMPT`. -/
def EMAIL_SPOOF_AGENT_PROMPT : String := "EMAIL_SPOOF_AGENT_PROMPT"

/-- Modelled from the spec: opaque role prompt, see `ANDROID_SAST_AGENT_PROMPT`. -/
def MEMPORY_ANALYSIS_PROMPT : String := "MEMPORY_ANALYSIS_PROMPT"

/-- Modelled from the spec: opaque role prompt, see `ANDROID_SAST_AGENT_PROMPT`. -/
def NETWORK_ANALYSER_PROMPT : String := "NETWORK_ANALYSER_PROMPT"

/-- Modelled from the spec: opaque role prompt, see `ANDROID_SAST_AGENT_PROMPT`. -/
def RED_TEAM_AGENT_PROMPT : String := "RED_TEAM_AGENT_PROMPT"

/-- Modelled from the spec: opaque role prompt, see `ANDROID_SAST_AGENT_PROMPT`. -/
def REPlAY_ATTACK_AGENT_PROMPT : String := "REPlAY_ATTACK_AGENT_PROMPT"

/-- Modelled from the spec: opaque role prompt, see `ANDROID_SAST_AGENT_PROMPT`. -/
def REPORTING_AGENT_PROMPT : String := "REPORTING_AGENT_PROMPT"

/-- Modelled from the spec: opaque role prompt, see `ANDROID_SAST_AGENT_PROMPT`. -/
def TRIAGER_AGENT_PROMPT : String := "TRIAGER_AGENT_PROMPT"

/-- Modelled from the spec: opaque role prompt, see `ANDROID_SAST_AGENT_PROMPT`. -/
def REVERSE_ENGINEERING_AGENT_PROMPT : String := "REVERSE_ENGINEERING_AGENT_PROMPT"

/-- Modelled from the spec: opaque role prompt, see `ANDROID_SAST_AGENT_PROMPT`. -/
def SUBGHZ_AGENT_PROMPT : String := "SUBGHZ_AGENT_PROMPT"

/-- Modelled from the spec: opaque role prompt, see `ANDROID_SAST_AGENT_PROMPT`. -/
def WIFI_SECURITY_AGENT_PROMPT : String := "WIFI_SECURITY_AGENT_PROMPT"

/-- Modelled from the spec: opaque role prompt, see `ANDROID_SAST_AGENT_PROMPT`. -/
def SOURCE_CODE_ANALYZER_AGENT_PROMPT : String := "SOURCE_CODE_ANALYZER_AGENT_PROMPT"

/-- Modelled from the spec: opaque manager prompt, see `ANDROID_SAST_AGENT_PROMPT`. -/
def THOUGHT_ROUTER_MANAGER_AGENT_PROMPT : String := "THOUGHT_ROUTER_MANAGER_AGENT_PROMPT"

/-! ## Specialist agents (`SecurityAgentSystem._create_all_agents`) -/

/-- The shared `agent_kwargs` dict (src/Agent.py:127-141). Defaults mirror
the `agno` `Agent` defaults for keys the dict may omit. -/
structure AgentKwargs where
  model : ModelAdapter
  tools : List Tool
  db : Option SqliteDb := none
  add_history_to_context : Bool := false
  enable_user_memories : Bool := false
deriving DecidableEq

/-- Assembly of `agent_kwargs` (src/Agent.py:127-141): start from
`{model, tools}`; if the storage db exists set `db` and
`add_history_to_context`; if the memory db exists overwrite `db` and
additionally set `enable_user_memories` and `add_history_to_context`. -/
def mkAgentKwargs (model : ModelAdapter) (tools : List Tool)
    (storage_db memory_db : Option SqliteDb) : AgentKwargs :=
  let kw0 : AgentKwargs := { model := model, tools := tools }
  let kw1 :=
    if storage_db.isSome then
      { kw0 with db := storage_db, add_history_to_context := true }
    else kw0
  if memory_db.isSome then
    { kw1 with db := memory_db, enable_user_memories := true,
               add_history_to_context := true }
  else kw1

/-- An `agno` `Agent(...)` as constructed by `_create_all_agents`: the
per-role arguments plus the shared `**agent_kwargs`. -/
structure AgentDef where
  name : String
  role : String
  instructions : List String
  model : ModelAdapter
  tools : List Tool
  db : Option SqliteDb
  add_history_to_context : Bool
  enable_user_memories : Bool
deriving DecidableEq

/-- One `Agent(name=..., role=..., instructions=[...], **agent_kwargs)` call. -/
def mkAgent (kw : AgentKwargs) (name role : String) (instructions : List String) :
    AgentDef :=
  { name := name, role := role, instructions := instructions,
    model := kw.model, tools := kw.tools, db := kw.db,
    add_history_to_context := kw.add_history_to_context,
    enable_user_memories := kw.enable_user_memories }

/-- `self.android_agent` (src/Agent.py:143-148). -/
def android_agent (kw : AgentKwargs) : AgentDef :=
  mkAgent kw "Android SAST Specialist" "Android Security Testing Expert"
    [ANDROID_SAST_AGENT_PROMPT]

/-- `self.blue_team_agent` (src/Agent.py:150-155). -/
def blue_team_agent (kw : AgentKwargs) : AgentDef :=
  mkAgent kw "Blue Team Defender" "Defense and Security Monitoring"
    [BLUETEAM_AGENT_PROMPT]

/-- `self.bug_bounty_agent` (src/Agent.py:157-162). -/
def bug_bounty_agent (kw : AgentKwargs) : AgentDef :=
  mkAgent kw "Bug Bounty Hunter" "Web Vulnerability Research"
    [BUG_BOUNTY_AGENT_PROMPT]

/-- `self.coding_agent` (src/Agent.py:164-169). -/
def coding_agent (kw : AgentKwargs) : AgentDef :=
  mkAgent kw "Security Developer" "Security Tool Development" [CODE_AGENT]

/-- `self.dfir_agent` (src/Agent.py:171-176). -/
def dfir_agent (kw : AgentKwargs) : AgentDef :=
  mkAgent kw "DFIR Investigator" "Digital Forensics and Incident Response"
    [DFIR_AGENT_PROMPT]

/-- `self.email_security_agent` (src/Agent.py:178-183). -/
def email_security_agent (kw : AgentKwargs) : AgentDef :=
  mkAgent kw "Email Security Analyst" "Email Configuration Security"
    [EMAIL_SPOOF_AGENT_PROMPT]

/-- `self.memory_agent` (src/Agent.py:185-190). -/
def memory_agent (kw : AgentKwargs) : AgentDef :=
  mkAgent kw "Memory Forensics Expert" "Runtime Memory Analysis"
    [MEMPORY_ANALYSIS_PROMPT]

/-- `self.network_agent` (src/Agent.py:192-197). -/
def network_agent (kw : AgentKwargs) : AgentDef :=
  mkAgent kw "Network Security Analyst" "Network Traffic Analysis"
    [NETWORK_ANALYSER_PROMPT]

/-- `self.red_team_agent` (src/Agent.py:199-204). -/
def red_team_agent (kw : AgentKwargs) : AgentDef :=
  mkAgent kw "Red Team Operator" "Offensive Security Operations"
    [RED_TEAM_AGENT_PROMPT]

/-- `self.replay_attack_agent` (src/Agent.py:206-211). -/
def replay_attack_agent (kw : AgentKwargs) : AgentDef :=
  mkAgent kw "Replay Attack Specialist" "Network Replay and Analysis"
    [REPlAY_ATTACK_AGENT_PROMPT]

/-- `self.reporting_agent` (src/Agent.py:213-218). -/
def reporting_agent (kw : AgentKwargs) : AgentDef :=
  mkAgent kw "Security Reporter" "Security Documentation"
    [REPORTING_AGENT_PROMPT]

/-- `self.triage_agent` (src/Agent.py:220-225). -/
def triage_agent (kw : AgentKwargs) : AgentDef :=
  mkAgent kw "Vulnerability Validator" "Security Finding Verification"
    [TRIAGER_AGENT_PROMPT]

/-- `self.reverse_engineering_agent` (src/Agent.py:227-232). -/
def reverse_engineering_agent (kw : AgentKwargs) : AgentDef :=
  mkAgent kw "Reverse Engineer" "Binary Analysis and RE"
    [REVERSE_ENGINEERING_AGENT_PROMPT]

/-- `self.subghz_agent` (src/Agent.py:234-239). -/
def subghz_agent (kw : AgentKwargs) : AgentDef :=
  mkAgent kw "RF Security Expert" "Sub-GHz Radio Analysis"
    [SUBGHZ_AGENT_PROMPT]

/-- `self.wifi_agent` (src/Agent.py:241-246). -/
def wifi_agent (kw : AgentKwargs) : AgentDef :=
  mkAgent kw "WiFi Security Tester" "Wireless Network Security"
    [WIFI_SECURITY_AGENT_PROMPT]

/-- `self.source_code_analyzer_agent` (src/Agent.py:248-253). -/
def source_code_analyzer_agent (kw : AgentKwargs) : AgentDef :=
  mkAgent kw "Source Code Analyzer" "SAST and Exploit Verification Specialist"
    [SOURCE_CODE_ANALYZER_AGENT_PROMPT]

/-- `SecurityAgentSystem._create_all_agents` (src/Agent.py:124-253): the
sixteen specialists, in source order (which is also the `members` order of
`_create_security_team`, src/Agent.py:267-284). -/
def _create_all_agents (kw : AgentKwargs) : List AgentDef :=
  [android_agent kw, blue_team_agent kw, bug_bounty_agent kw, coding_agent kw,
   dfir_agent kw, email_security_agent kw, memory_agent kw, network_agent kw,
   red_team_agent kw, replay_attack_agent kw, reporting_agent kw,
   triage_agent kw, reverse_engineering_agent kw, subghz_agent kw,
   wifi_agent kw, source_code_analyzer_agent kw]

/-! ## Team and system construction -/

/-- The `agno` `Team(**team_kwargs)` of `_create_security_team`
(src/Agent.py:262-296). -/
structure Team where
  name : String
  model : ModelAdapter
  respond_directly : Bool
  members : List AgentDef
  markdown : Bool
  instructions : List String
  show_members_responses : Bool
  add_history_to_context : Bool
  db : Option SqliteDb := none
  enable_user_memories : Bool := false
deriving DecidableEq

/-- `uuid.uuid4()` modelled as drawing from an entropy counter: returns the
fresh identifier and the advanced counter. Distinct draws are distinct. -/
def genUuid (entropy : Nat) : Nat × Nat := (entropy, entropy + 1)

/-- The state of a constructed `SecurityAgentSystem` (src/Agent.py:33-64):
every attribute `__init__`, `_create_all_agents` and `_create_security_team`
set on `self`. The sixteen agent attributes are recoverable as
`_create_all_agents agent_kwargs`. -/
structure SecurityAgentSystem where
  model_name : String
  model : ModelAdapter
  use_memory : Bool
  use_storage : Bool
  use_mcp : Bool
  mcp_servers : List MCPServerSpec
  all_tools : List Tool
  mcp_warnings : List Warning
  storage_db : Option SqliteDb
  memory_db : Option SqliteDb
  agent_kwargs : AgentKwargs
  session_id : Nat
  security_team : Team
deriving DecidableEq

/-- `SecurityAgentSystem.__init__` (src/Agent.py:33-64) together with
`_create_all_agents` and `_create_security_team` (src/Agent.py:255-296).
`litellm_available` and `multi_mcp_fails` are the external oracles described
above; `entropy` feeds `uuid.uuid4()` and the advanced counter is returned
alongside the system. -/
def mkSystem (model_name : String)
    (use_memory use_storage use_mcp : Bool)
    (mcp_servers : List MCPServerSpec)
    (litellm_available : Bool) (multi_mcp_fails : List String → Bool)
    (entropy : Nat) : SecurityAgentSystem × Nat :=
  let model := _get_model litellm_available model_name
  let tools_warnings := _initialize_tools use_mcp mcp_servers multi_mcp_fails
  let storage_db := if use_storage then some { db_file := storage_path } else none
  let memory_db := if use_memory then some { db_file := memory_path } else none
  let kw := mkAgentKwargs model tools_warnings.1 storage_db memory_db
  let uuid_draw := genUuid entropy
  let team0 : Team :=
    { name := "Security Assessment Team"
      model := model
      respond_directly := true
      members := _create_all_agents kw
      markdown := true
      instructions := [THOUGHT_ROUTER_MANAGER_AGENT_PROMPT]
      show_members_responses := true
      add_history_to_context := true }
  let team :=
    if memory_db.isSome then
      { team0 with db := memory_db, enable_user_memories := true }
    else team0
  ({ model_name := model_name
     model := model
     use_memory := use_memory
     use_storage := use_storage
     use_mcp := use_mcp
     mcp_servers := mcp_servers
     all_tools := tools_warnings.1
     mcp_warnings := tools_warnings.2
     storage_db := storage_db
     memory_db := memory_db
     agent_kwargs := kw
     session_id := uuid_draw.1
     security_team := team }, uuid_draw.2)

/-- The specialist roster of a system: the members of its security team. -/
def members (sys : SecurityAgentSystem) : List AgentDef :=
  sys.security_team.members

/-- The arguments `run_assessment` hands to
`self.security_team.print_response` (src/Agent.py:301). -/
structure PrintResponseCall where
  task : String
  stream : Bool
  session_id : Nat
deriving DecidableEq

/-- `SecurityAgentSystem.run_assessment` (src/Agent.py:298-301): submits the
task with the instance's persistent `session_id`. -/
def run_assessment (sys : SecurityAgentSystem) (task : String)
    (stream : Bool := true) : PrintResponseCall :=
  { task := task, stream := stream, session_id := sys.session_id }

/-- The dict literal of `get_agent` (src/Agent.py:305-323). -/
def get_agent_table (kw : AgentKwargs) : List (String × AgentDef) :=
  [("android", android_agent kw),
   ("blue_team", blue_team_agent kw),
   ("bug_bounty", bug_bounty_agent kw),
   ("coding", coding_agent kw),
   ("dfir", dfir_agent kw),
   ("email", email_security_agent kw),
   ("memory", memory_agent kw),
   ("network", network_agent kw),
   ("red_team", red_team_agent kw),
   ("replay", replay_attack_agent kw),
   ("reporting", reporting_agent kw),
   ("triage", triage_agent kw),
   ("reverse_engineering", reverse_engineering_agent kw),
   ("rf", subghz_agent kw),
   ("wifi", wifi_agent kw),
   ("source_code", source_code_analyzer_agent kw),
   ("sast", source_code_analyzer_agent kw)]

/-- Python `str.lower()` at the character level (ASCII case folding). -/
def pyLower (s : String) : String :=
  String.mk (s.toList.map Char.toLower)

/-- `SecurityAgentSystem.get_agent` (src/Agent.py:303-324):
`agents.get(agent_type.lower())`, i.e. `None` for unknown keys. -/
def get_agent (sys : SecurityAgentSystem) (agent_type : String) : Option AgentDef :=
  List.lookup (pyLower agent_type) (get_agent_table sys.agent_kwargs)

/-! ## CLI toggle handlers (`src/crossbow_cli.py`, `main`) -/

/-- The mutable locals of the CLI loop that the toggle handlers touch
(src/crossbow_cli.py:384-411): current model, the three toggles, the MCP
server list, the live system instance, and the entropy counter feeding
construction. -/
structure CLIState where
  current_model : String
  memory_enabled : Bool
  storage_enabled : Bool
  mcp_enabled : Bool
  mcp_servers : List MCPServerSpec
  agent_system : SecurityAgentSystem
  entropy : Nat
deriving DecidableEq

/-- A `SecurityAgentSystem(...)` call inside a CLI `try` block.
`build_fails` is the oracle for the constructor raising (missing credential,
etc.); on failure the exception propagates as `Except.error`. -/
def trySystem (build_fails : Bool) (model_name : String)
    (use_memory use_storage use_mcp : Bool) (mcp_servers : List MCPServerSpec)
    (litellm_available : Bool) (multi_mcp_fails : List String → Bool)
    (entropy : Nat) : Except Unit (SecurityAgentSystem × Nat) :=
  if build_fails then Except.error ()
  else Except.ok (mkSystem model_name use_memory use_storage use_mcp mcp_servers
    litellm_available multi_mcp_fails entropy)

/-- The `/memory` branch of the CLI loop (src/crossbow_cli.py:444-463): flip
the flag, rebuild the system, and on failure flip the flag back, leaving the
previous system in place. -/
def handle_memory_command (litellm_available : Bool)
    (multi_mcp_fails : List String → Bool) (build_fails : Bool)
    (st : CLIState) : CLIState :=
  let memory_enabled := !st.memory_enabled
  match trySystem build_fails st.current_model memory_enabled
      st.storage_enabled st.mcp_enabled st.mcp_servers litellm_available
      multi_mcp_fails st.entropy with
  | Except.ok sysn =>
    { st with memory_enabled := memory_enabled, agent_system := sysn.1,
              entropy := sysn.2 }
  | Except.error _ =>
    { st with memory_enabled := !memory_enabled }

/-- The `/storage` branch of the CLI loop (src/crossbow_cli.py:465-484). -/
def handle_storage_command (litellm_available : Bool)
    (multi_mcp_fails : List String → Bool) (build_fails : Bool)
    (st : CLIState) : CLIState :=
  let storage_enabled := !st.storage_enabled
  match trySystem build_fails st.current_model st.memory_enabled
      storage_enabled st.mcp_enabled st.mcp_servers litellm_available
      multi_mcp_fails st.entropy with
  | Except.ok sysn =>
    { st with storage_enabled := storage_enabled, agent_system := sysn.1,
              entropy := sysn.2 }
  | Except.error _ =>
    { st with storage_enabled := !storage_enabled }

/-- The `/mcp` branch of the CLI loop (src/crossbow_cli.py:486-509). -/
def handle_mcp_command (litellm_available : Bool)
    (multi_mcp_fails : List String → Bool) (build_fails : Bool)
    (st : CLIState) : CLIState :=
  let mcp_enabled := !st.mcp_enabled
  match trySystem build_fails st.current_model st.memory_enabled
      st.storage_enabled mcp_enabled st.mcp_servers litellm_available
      multi_mcp_fails st.entropy with
  | Except.ok sysn =>
    { st with mcp_enabled := mcp_enabled, agent_system := sysn.1,
              entropy := sysn.2 }
  | Except.error _ =>
    { st with mcp_enabled := !mcp_enabled }

/-! ## Concrete specimens used by counterexamples and witnesses -/

/-- A command-based MCP spec whose bridge construction will be made to fail. -/
def cmdSpecBad : MCPServerSpec :=
  { name := some "bad", command := some "badcmd" }

/-- A URL-based MCP spec whose attachment succeeds. -/
def urlSpecGood : MCPServerSpec :=
  { name := some "X", url := some "http://x" }

/-- A URL-based MCP spec whose attachment raises. -/
def urlSpecBad : MCPServerSpec :=
  { name := some "Y", url := some "http://y", initFails := true }

/-- A command-based MCP spec whose bridge construction succeeds. -/
def cmdSpecGood : MCPServerSpec :=
  { name := some "C", command := some "cmd" }

/-- The sixteen specialist names, in the source's construction (and team
membership) order. -/
def specialist_names : List String :=
  ["Android SAST Specialist", "Blue Team Defender", "Bug Bounty Hunter",
   "Security Developer", "DFIR Investigator", "Email Security Analyst",
   "Memory Forensics Expert", "Network Security Analyst", "Red Team Operator",
   "Replay Attack Specialist", "Security Reporter", "Vulnerability Validator",
   "Reverse Engineer", "RF Security Expert", "WiFi Security Tester",
   "Source Code Analyzer"]

/-! ## Helper lemmas -/

/-- `partitionServers` distributes over list append. -/
theorem partitionServers_append (l1 l2 : List MCPServerSpec) :
    partitionServers (l1 ++ l2)
      = ((partitionServers l1).1 ++ (partitionServers l2).1,
         (partitionServers l1).2 ++ (partitionServers l2).2) := by
  induction l1 with
  | nil => simp [partitionServers]
  | cons s rest ih =>
    cases hc : s.command with
    | some c => simp [partitionServers, hc, ih]
    | none =>
      cases hu : s.url with
      | some u => simp [partitionServers, hc, hu, ih]
      | none => simp [partitionServers, hc, hu, ih]

/-- `attachUrls` distributes over list append. -/
theorem attachUrls_append (l1 l2 : List MCPServerSpec) :
    attachUrls (l1 ++ l2)
      = ((attachUrls l1).1 ++ (attachUrls l2).1,
         (attachUrls l1).2 ++ (attachUrls l2).2) := by
  induction l1 with
  | nil => simp [attachUrls]
  | cons s rest ih => by_cases hf : s.initFails <;> simp [attachUrls, hf, ih]

/-- When every URL attachment succeeds, `attachUrls` is a plain map with no
warnings. -/
theorem attachUrls_all_ok (l : List MCPServerSpec)
    (h : ∀ s ∈ l, s.initFails = false) :
    attachUrls l
      = (l.map (fun s =>
           Tool.mcp (s.url.getD "") (s.transport.getD "streamable-http")), []) := by
  induction l with
  | nil => rfl
  | cons s rest ih =>
    have hs : s.initFails = false := h s (List.mem_cons_self s rest)
    have hr := ih (fun x hx => h x (List.mem_cons_of_mem s hx))
    simp [attachUrls, hs, hr]

/-- Key lookup in a string-keyed association list succeeds exactly when the
key occurs among the first components. -/
theorem lookup_isSome_iff_mem (l : List (String × AgentDef)) (k : String) :
    (List.lookup k l).isSome = true ↔ k ∈ l.map Prod.fst := by
  induction l with
  | nil => simp [List.lookup]
  | cons p rest ih =>
    obtain ⟨k1, v⟩ := p
    by_cases h : k = k1
    · subst h
      simp [List.lookup]
    · have hbeq : (k == k1) = false := beq_eq_false_iff_ne.mpr h
      simp [List.lookup, hbeq, h, ih]

/-! ## Claim theorems -/

/-- C2 counterexample: the claim "for every model identifier string
containing a first-class provider name fragment the resolver returns that
provider's adapter" fails at the concrete input "o1-gemini": it contains
Google's fragment "gemini" (case-insensitively), yet `_get_model` returns
the OpenAI adapter, because the "o1" fragment is checked earlier. -/
theorem c2_counterexample :
    matchesProvider Provider.google "o1-gemini" = true ∧
    _get_model true "o1-gemini" ≠ adapterOfProvider Provider.google "o1-gemini" := by
  decide

/-- C2 (amended): the resolver checks the three first-class providers in
priority order — Anthropic ("claude"), then OpenAI ("gpt"/"o1"/"o3"), then
Google ("gemini") — and a string containing a fragment receives the
highest-priority matching provider's adapter; every other string receives
the generic LiteLLM adapter, or the default OpenAI adapter when LiteLLM is
unavailable. The resolver is a total function of the input string (it never
raises): `_get_model` coincides everywhere with `resolveModelSpec`, the
priority-ordered resolver written from the spec's §4.1 wording. -/
theorem c2_resolver_matches_spec (litellm_available : Bool) (s : String) :
    _get_model litellm_available s = resolveModelSpec litellm_available s := by
  simp only [_get_model, resolveModelSpec, matchesProvider, providerFragments,
    List.any_cons, List.any_nil, Bool.or_false, Bool.or_assoc]

/-- C5: the session identifier is drawn from the entropy source exactly once
per construction (the counter advances by exactly one), every task submitted
through `run_assessment` carries that same identifier, and a second system
constructed with identical arguments from the advanced entropy state has a
distinct session identifier. -/
theorem c5_session_identity (mn : String) (um us umcp : Bool)
    (srv : List MCPServerSpec) (lav : Bool) (mf : List String → Bool) (n : Nat) :
    (mkSystem mn um us umcp srv lav mf n).2 = n + 1 ∧
    (∀ task stream,
      (run_assessment (mkSystem mn um us umcp srv lav mf n).1 task stream).session_id
        = (mkSystem mn um us umcp srv lav mf n).1.session_id) ∧
    (mkSystem mn um us umcp srv lav mf n).1.session_id ≠
      (mkSystem mn um us umcp srv lav mf
        ((mkSystem mn um us umcp srv lav mf n).2)).1.session_id := by
  refine ⟨rfl, fun task stream => rfl, ?_⟩
  show n ≠ n + 1
  omega

/-- C9: when rebuilding the system after a `/memory`, `/storage` or `/mcp`
toggle throws, the handler reverts the toggle flag to its prior value and
keeps the previous system instance (and every other piece of CLI state)
unchanged: the failed reconfiguration is a no-op on the CLI state. -/
theorem c9_toggle_rollback (lav : Bool) (mf : List String → Bool)
    (st : CLIState) :
    handle_memory_command lav mf true st = st ∧
    handle_storage_command lav mf true st = st ∧
    handle_mcp_command lav mf true st = st := by
  obtain ⟨cm, me, se, mce, srv, sys, ent⟩ := st
  refine ⟨?_, ?_, ?_⟩ <;>
    simp [handle_memory_command, handle_storage_command, handle_mcp_command,
      trySystem]

/-- C4: memory and storage are independent toggles. With only storage
enabled every specialist is wired to the operational-state store with
history appending (and no long-term user memories); with memory enabled —
alone or together with storage — the memory store is the one wired as the
specialists' database, long-term user memories are retained, and history
appending remains enabled, so memory takes precedence over storage for
which store backs history when both are on. -/
theorem c4_persistence_toggles (mn : String) (umcp : Bool)
    (srv : List MCPServerSpec) (lav : Bool) (mf : List String → Bool) (n : Nat) :
    ((members (mkSystem mn false true umcp srv lav mf n).1).map
        (fun a => (a.db, a.add_history_to_context, a.enable_user_memories))
      = List.replicate 16 (some (SqliteDb.mk storage_path), true, false)) ∧
    (∀ us : Bool,
      (members (mkSystem mn true us umcp srv lav mf n).1).map
          (fun a => (a.db, a.add_history_to_context, a.enable_user_memories))
        = List.replicate 16 (some (SqliteDb.mk memory_path), true, true)) :=
  ⟨rfl, fun us => by cases us <;> rfl⟩

/-- C6: in any constructed system instance, every specialist references the
same single model adapter and the same single tool list as every other
specialist — the system's shared `model` and `all_tools` — for every
configuration of the constructor arguments. -/
theorem c6_shared_model_and_tools (mn : String) (um us umcp : Bool)
    (srv : List MCPServerSpec) (lav : Bool) (mf : List String → Bool) (n : Nat) :
    (members (mkSystem mn um us umcp srv lav mf n).1).map
        (fun a => (a.model, a.tools))
      = List.replicate 16
          ((mkSystem mn um us umcp srv lav mf n).1.model,
           (mkSystem mn um us umcp srv lav mf n).1.all_tools) := by
  cases um <;> cases us <;> rfl

/-- C7: for all constructor arguments the specialist roster is the same
fixed sequence of sixteen specialists with the same names in the same order;
and reconstructing with the memory toggle changed leaves every
non-persistence attribute of every specialist (name, role, instructions,
model, tools) unchanged, so only the persistence wiring differs. -/
theorem c7_fixed_roster (mn : String) (us umcp : Bool)
    (srv : List MCPServerSpec) (lav : Bool) (mf : List String → Bool) (n : Nat) :
    (∀ um : Bool,
      (members (mkSystem mn um us umcp srv lav mf n).1).map AgentDef.name
          = specialist_names ∧
      (members (mkSystem mn um us umcp srv lav mf n).1).length = 16) ∧
    (∀ um um' : Bool,
      (members (mkSystem mn um us umcp srv lav mf n).1).map
          (fun a => (a.name, a.role, a.instructions, a.model, a.tools))
        = (members (mkSystem mn um' us umcp srv lav mf n).1).map
            (fun a => (a.name, a.role, a.instructions, a.model, a.tools))) := by
  constructor
  · intro um
    cases um <;> exact ⟨rfl, rfl⟩
  · intro um um'
    cases um <;> cases um' <;> cases us <;> rfl

/-- C10: `get_agent` lower-cases its argument and looks it up in a fixed
seventeen-key table; it returns `none` (rather than raising) exactly for
strings whose lower-casing is outside that table, and the two keys
"source_code" and "sast" both resolve to the Source Code Analyzer
specialist. -/
theorem c10_get_agent (mn : String) (um us umcp : Bool)
    (srv : List MCPServerSpec) (lav : Bool) (mf : List String → Bool) (n : Nat)
    (s : String) :
    ((get_agent (mkSystem mn um us umcp srv lav mf n).1 s).isSome = true ↔
      pyLower s ∈
        (get_agent_table (mkSystem mn um us umcp srv lav mf n).1.agent_kwargs).map
          Prod.fst) ∧
    (get_agent_table (mkSystem mn um us umcp srv lav mf n).1.agent_kwargs).map
        Prod.fst
      = ["android", "blue_team", "bug_bounty", "coding", "dfir", "email",
         "memory", "network", "red_team", "replay", "reporting", "triage",
         "reverse_engineering", "rf", "wifi", "source_code", "sast"] ∧
    ((get_agent_table (mkSystem mn um us umcp srv lav mf n).1.agent_kwargs).map
        Prod.fst).length = 17 ∧
    get_agent (mkSystem mn um us umcp srv lav mf n).1 "source_code"
      = some (source_code_analyzer_agent
          (mkSystem mn um us umcp srv lav mf n).1.agent_kwargs) ∧
    get_agent (mkSystem mn um us umcp srv lav mf n).1 "sast"
      = get_agent (mkSystem mn um us umcp srv lav mf n).1 "source_code" :=
  ⟨lookup_isSome_iff_mem _ _, rfl, rfl, rfl, rfl⟩

/-- C1 counterexample: the claim "if building the combined command-based
bridge raises, only that bridge is omitted and every attachable URL-based
spec still appears" fails at the concrete spec list
`[cmdSpecBad, urlSpecGood]` with a raising bridge constructor: the URL-based
spec is attachable (its attachment would not fail), yet its capability is
absent from the result, which is exactly the built-in list. -/
theorem c1_counterexample :
    (partitionServers [cmdSpecBad, urlSpecGood]).1 ≠ [] ∧
    urlSpecGood ∈ (partitionServers [cmdSpecBad, urlSpecGood]).2 ∧
    urlSpecGood.initFails = false ∧
    Tool.mcp "http://x" "streamable-http" ∉
      (_initialize_tools true [cmdSpecBad, urlSpecGood] (fun _ => true)).1 ∧
    (_initialize_tools true [cmdSpecBad, urlSpecGood] (fun _ => true)).1
      = SECURITY_TOOLS ++ base_tools := by
  decide

/-- C1 (amended): if building the single combined command-based bridge
raises, the failure is caught by the handler that wraps the whole external
attachment block, and system construction does not abort: every built-in
capability still appears. But because that handler encloses the URL loop as
well, every URL-based attachment is also skipped — the resulting capability
list is exactly the built-in list, and the only warning is the bridge
failure warning. -/
theorem c1_bridge_failure_drops_urls (servers : List MCPServerSpec)
    (mf : List String → Bool)
    (hc : (partitionServers servers).1 ≠ [])
    (hf : mf (partitionServers servers).1 = true) :
    (_initialize_tools true servers mf).1 = SECURITY_TOOLS ++ base_tools ∧
    (_initialize_tools true servers mf).2 = [Warning.mcpToolsFailed] := by
  have hne : servers ≠ [] := by
    rintro rfl
    exact hc rfl
  have h1 : servers.isEmpty = false := by
    cases servers
    · exact absurd rfl hne
    · rfl
  have h2 : (partitionServers servers).1.isEmpty = false := by
    cases h : (partitionServers servers).1
    · exact absurd h hc
    · rfl
  constructor <;> simp [_initialize_tools, h1, h2, hf]

/-- C1 witness: the amended statement evaluated at the two-spec list with a
raising bridge constructor. -/
theorem c1_bridge_failure_witness :
    (_initialize_tools true [cmdSpecBad, urlSpecGood] (fun _ => true)).1
        = SECURITY_TOOLS ++ base_tools ∧
    (_initialize_tools true [cmdSpecBad, urlSpecGood] (fun _ => true)).2
        = [Warning.mcpToolsFailed] :=
  c1_bridge_failure_drops_urls [cmdSpecBad, urlSpecGood] (fun _ => true)
    (by decide) rfl

/-- C3: if attaching a single URL-based spec raises, the exception is caught
and reported as a warning naming that spec, and the spec is skipped: the
resulting capability list is exactly the list that would have been built had
the spec not been present, so the built-ins, the command-based bridge and
every other URL-based attachment are unaffected and the build does not
abort. (The hypothesis `hmf` says the combined bridge constructor itself
does not raise, i.e. the URL loop is actually reached.) -/
theorem c3_url_failure_isolated (pre post : List MCPServerSpec)
    (s : MCPServerSpec) (hcmd : s.command = none) (hurl : s.url.isSome = true)
    (hfail : s.initFails = true) (mf : List String → Bool)
    (hmf : mf (partitionServers (pre ++ s :: post)).1 = false) :
    (_initialize_tools true (pre ++ s :: post) mf).1
      = (_initialize_tools true (pre ++ post) mf).1 ∧
    Warning.mcpServerFailed (s.name.getD "unknown")
      ∈ (_initialize_tools true (pre ++ s :: post) mf).2 := by
  obtain ⟨u, hu⟩ := Option.isSome_iff_exists.mp hurl
  have hL1 : (partitionServers (pre ++ s :: post)).1
      = (partitionServers pre).1 ++ (partitionServers post).1 := by
    simp [partitionServers_append, partitionServers, hcmd, hu]
  have hL2 : (partitionServers (pre ++ s :: post)).2
      = (partitionServers pre).2 ++ s :: (partitionServers post).2 := by
    simp [partitionServers_append, partitionServers, hcmd, hu]
  have hR1 : (partitionServers (pre ++ post)).1
      = (partitionServers pre).1 ++ (partitionServers post).1 := by
    simp [partitionServers_append]
  have hR2 : (partitionServers (pre ++ post)).2
      = (partitionServers pre).2 ++ (partitionServers post).2 := by
    simp [partitionServers_append]
  have hA1 : (attachUrls ((partitionServers pre).2 ++ s :: (partitionServers post).2)).1
      = (attachUrls ((partitionServers pre).2 ++ (partitionServers post).2)).1 := by
    simp [attachUrls_append, attachUrls, hfail]
  have hA2 : Warning.mcpServerFailed (s.name.getD "unknown")
      ∈ (attachUrls ((partitionServers pre).2 ++ s :: (partitionServers post).2)).2 := by
    simp [attachUrls_append, attachUrls, hfail]
  have hLne : (pre ++ s :: post).isEmpty = false := by
    cases pre <;> rfl
  by_cases hpp : (pre ++ post).isEmpty = true
  · obtain ⟨hpre, hpost⟩ := List.append_eq_nil.mp (List.isEmpty_iff.mp hpp)
    subst hpre
    subst hpost
    constructor <;>
      simp [_initialize_tools, partitionServers, hcmd, hu, attachUrls, hfail]
  · have hni : (pre ++ post).isEmpty = false := by
      simpa using hpp
    rw [hL1] at hmf
    by_cases hce : ((partitionServers pre).1 ++ (partitionServers post).1).isEmpty = true
    · constructor <;>
        simp [_initialize_tools, hLne, hni, hL1, hL2, hR1, hR2, hce, hA1, hA2]
    · have hcf : ((partitionServers pre).1 ++ (partitionServers post).1).isEmpty = false := by
        simpa using hce
      constructor <;>
        simp [_initialize_tools, hLne, hni, hL1, hL2, hR1, hR2, hcf, hmf, hA1, hA2]

/-- C3 witness: a single failing URL-based spec, evaluated concretely: the
result equals the result of the empty spec list, and the warning names the
spec. -/
theorem c3_url_failure_witness :
    (_initialize_tools true ([] ++ urlSpecBad :: []) (fun _ => false)).1
      = (_initialize_tools true ([] ++ []) (fun _ => false)).1 ∧
    Warning.mcpServerFailed (urlSpecBad.name.getD "unknown")
      ∈ (_initialize_tools true ([] ++ urlSpecBad :: []) (fun _ => false)).2 :=
  c3_url_failure_isolated [] [] urlSpecBad rfl rfl rfl (fun _ => false) rfl

/-- C8: with external providers enabled, a non-raising bridge constructor
and no URL attachment failures, the built capability list is ordered exactly
as: the fixed built-ins first (security catalogue then base tools), then the
single combined command-based bridge covering all command-based specs as one
attachment, then one capability per URL-based spec in input order. -/
theorem c8_capability_ordering (servers : List MCPServerSpec)
    (mf : List String → Bool)
    (hc : (partitionServers servers).1 ≠ [])
    (hmf : mf (partitionServers servers).1 = false)
    (hok : ∀ s ∈ (partitionServers servers).2, s.initFails = false) :
    (_initialize_tools true servers mf).1
      = (SECURITY_TOOLS ++ base_tools)
        ++ [Tool.multiMCP (partitionServers servers).1]
        ++ ((partitionServers servers).2.map
              (fun s =>
                Tool.mcp (s.url.getD "") (s.transport.getD "streamable-http"))) := by
  have hne : servers ≠ [] := by
    rintro rfl
    exact hc rfl
  have h1 : servers.isEmpty = false := by
    cases servers
    · exact absurd rfl hne
    · rfl
  have h2 : (partitionServers servers).1.isEmpty = false := by
    cases h : (partitionServers servers).1
    · exact absurd h hc
    · rfl
  simp [_initialize_tools, h1, h2, hmf, attachUrls_all_ok _ hok]

/-- C8 witness: the ordering statement evaluated at one command-based and
one URL-based spec with no failures. -/
theorem c8_capability_ordering_witness :
    (_initialize_tools true [cmdSpecGood, urlSpecGood] (fun _ => false)).1
      = (SECURITY_TOOLS ++ base_tools)
        ++ [Tool.multiMCP (partitionServers [cmdSpecGood, urlSpecGood]).1]
        ++ ((partitionServers [cmdSpecGood, urlSpecGood]).2.map
              (fun s =>
                Tool.mcp (s.url.getD "") (s.transport.getD "streamable-http"))) :=
  c8_capability_ordering [cmdSpecGood, urlSpecGood] (fun _ => false)
    (by decide) rfl (by decide)

end CrossBow
